import Mathlib

/-!
Verification of the WebGL2 presentation-surface manager
(`src/backend/gl/src/window/web.rs`).

The embedding models the Rust module shallowly:
* GLState side effects (create/delete/bind/storage calls issued against the
  rendering context) are explicit state passing over a `GLState` record that
  tracks live object handles, binding points, renderbuffer storage, and
  the full call trace;
* `Option`-typed fields mirror the Rust `Option` fields of `Surface`;
* a Rust `.unwrap()` on `None` is modelled as a distinguished `panicked`
  outcome carrying the state reached at the panic point;
* handle allocation is deterministic (a fresh-`Nat` counter), standing in
  for the context returning fresh object keys.
-/

/-- 2D extent in pixels (`hal::window::Extent2D`). -/
structure Extent2D where
  width : Nat
  height : Nat
deriving DecidableEq

/-- Abstract pixel formats relevant to this backend (`hal::format::Format`):
the two formats the surface advertises in `swapchain_formats`, plus a
representative format outside the translatable set. -/
inductive Format where
  | Rgba8Unorm
  | Bgra8Unorm
  | D32Sfloat
deriving DecidableEq

/-- Modelled from the spec: the descriptor produced by the external
format-conversion collaborator (`conv::describe_format`); the core only
consumes "an internal storage format token", stored here as `tex_internal`
(the field name the code reads). -/
structure FormatDescription where
  tex_internal : Nat
deriving DecidableEq

/-- Modelled from the spec: `conv::describe_format` "maps an abstract pixel
format enum to an internal storage format token; returns nothing (failure)
for unsupported formats". The advertised surface formats translate; the
depth format is a representative unsupported one. -/
def describe_format : Format → Option FormatDescription
  | .Rgba8Unorm => some ⟨32856⟩
  | .Bgra8Unorm => some ⟨32856⟩
  | .D32Sfloat => none

/-- GLState object handles (`glow` object keys), modelled as naturals. -/
abbrev GLHandle := Nat

/-- GLenum constant `glow::RENDERBUFFER`. -/
def glRENDERBUFFER : Nat := 36161

/-- GLenum constant `glow::READ_FRAMEBUFFER`. -/
def glREAD_FRAMEBUFFER : Nat := 36008

/-- GLenum constant `glow::COLOR_ATTACHMENT0`. -/
def glCOLOR_ATTACHMENT0 : Nat := 36064

/-- One call issued against the rendering context; the `GLState` state records
the trace of these so that theorems can speak about which side effects a
code path performs. -/
inductive GLCall where
  | createRenderbuffer (h : GLHandle)
  | deleteRenderbuffer (h : GLHandle)
  | createFramebuffer (h : GLHandle)
  | deleteFramebuffer (h : GLHandle)
  | bindRenderbuffer (target : Nat) (h : Option GLHandle)
  | bindFramebuffer (target : Nat) (h : Option GLHandle)
  | renderbufferStorage (target fmt w hgt : Nat)
  | framebufferRenderbuffer (target attachment rbtarget : Nat) (h : Option GLHandle)
deriving DecidableEq

/-- State of the rendering context as far as this module observes it. -/
structure GLState where
  next : GLHandle
  liveRbos : List GLHandle
  liveFbos : List GLHandle
  boundRbo : Option GLHandle
  boundReadFbo : Option GLHandle
  rboStorage : List (GLHandle × Nat × Nat × Nat)
  fboColor0 : List (GLHandle × Option GLHandle)
  calls : List GLCall
deriving DecidableEq

/-- A fresh rendering context: no live objects, nothing bound, empty trace. -/
def GLState.fresh : GLState := ⟨0, [], [], none, none, [], [], []⟩

/-- `glow` `create_renderbuffer` (the code unwraps the returned option, so
allocation is modelled as always yielding a fresh handle). -/
def GLState.create_renderbuffer (gl : GLState) : GLState × GLHandle :=
  ({ gl with
      next := gl.next + 1
      liveRbos := gl.next :: gl.liveRbos
      calls := gl.calls ++ [.createRenderbuffer gl.next] }, gl.next)

/-- `glow` `delete_renderbuffer`. -/
def GLState.delete_renderbuffer (gl : GLState) (h : GLHandle) : GLState :=
  { gl with
      liveRbos := gl.liveRbos.erase h
      calls := gl.calls ++ [.deleteRenderbuffer h] }

/-- `glow` `create_framebuffer` (unwrapped, as in the code). -/
def GLState.create_framebuffer (gl : GLState) : GLState × GLHandle :=
  ({ gl with
      next := gl.next + 1
      liveFbos := gl.next :: gl.liveFbos
      calls := gl.calls ++ [.createFramebuffer gl.next] }, gl.next)

/-- `glow` `delete_framebuffer`. -/
def GLState.delete_framebuffer (gl : GLState) (h : GLHandle) : GLState :=
  { gl with
      liveFbos := gl.liveFbos.erase h
      calls := gl.calls ++ [.deleteFramebuffer h] }

/-- `glow` `bind_renderbuffer`. -/
def GLState.bind_renderbuffer (gl : GLState) (target : Nat) (h : Option GLHandle) : GLState :=
  { gl with
      boundRbo := h
      calls := gl.calls ++ [.bindRenderbuffer target h] }

/-- `glow` `bind_framebuffer`. -/
def GLState.bind_framebuffer (gl : GLState) (target : Nat) (h : Option GLHandle) : GLState :=
  { gl with
      boundReadFbo := h
      calls := gl.calls ++ [.bindFramebuffer target h] }

/-- `glow` `renderbuffer_storage`: (re)provisions the storage of the
renderbuffer currently bound to the renderbuffer target. -/
def GLState.renderbuffer_storage (gl : GLState) (target fmt w hgt : Nat) : GLState :=
  { gl with
      rboStorage :=
        match gl.boundRbo with
        | some r => (r, fmt, w, hgt) :: gl.rboStorage
        | none => gl.rboStorage
      calls := gl.calls ++ [.renderbufferStorage target fmt w hgt] }

/-- `glow` `framebuffer_renderbuffer`: attaches a renderbuffer to the
color slot of the framebuffer currently bound to the read target. -/
def GLState.framebuffer_renderbuffer (gl : GLState) (target attachment rbtarget : Nat)
    (h : Option GLHandle) : GLState :=
  { gl with
      fboColor0 :=
        match gl.boundReadFbo with
        | some f => (f, h) :: gl.fboColor0
        | none => gl.fboColor0
      calls := gl.calls ++ [.framebufferRenderbuffer target attachment rbtarget h] }

/-- The storage parameters (internal format, width, height) most recently
provisioned for a renderbuffer handle. -/
def GLState.storageOf (gl : GLState) (r : GLHandle) : Option (Nat × Nat × Nat) :=
  match gl.rboStorage.find? (fun e => e.1 == r) with
  | some e => some e.2
  | none => none

/-- The legacy swapchain value (`Swapchain` in the source): a recorded
extent and the framebuffer list (an `ArrayVec` holding one entry). -/
structure Swapchain where
  extent : Extent2D
  fbos : List GLHandle
deriving DecidableEq

/-- The surface (`Surface` in the source): the canvas handle is reduced to
the extent it reports, alongside the two optional fields of the struct. -/
structure Surface where
  canvas : Extent2D
  swapchain : Option Swapchain
  renderbuffer : Option GLHandle
deriving DecidableEq

/-- `Instance::create_surface_with_element`: a fresh surface with no
swapchain and no renderbuffer, returned with the canvas. -/
def create_surface_with_element (canvas : Extent2D) : Surface × Extent2D :=
  ({ canvas := canvas, swapchain := none, renderbuffer := none }, canvas)

/-- `hal::window::CompositeAlpha` modes (external crate). -/
inductive CompositeAlpha where
  | OPAQUE
  | PREMULTIPLIED
  | POSTMULTIPLIED
  | INHERIT
deriving DecidableEq

/-- `hal::window::PresentMode` (external crate). -/
inductive PresentMode where
  | Immediate
  | Mailbox
  | Fifo
  | Relaxed
deriving DecidableEq

/-- `hal::image::Usage` bit for TRANSFER_SRC (usage is a bitflag word). -/
def USAGE_TRANSFER_SRC : Nat := 1

/-- `hal::image::Usage` bit for COLOR_ATTACHMENT. -/
def USAGE_COLOR_ATTACHMENT : Nat := 16

/-- `hal::window::SurfaceCapabilities`: the two `RangeInclusive` fields are
flattened to explicit min/max pairs. -/
structure SurfaceCapabilities where
  image_count_min : Nat
  image_count_max : Nat
  current_extent : Option Extent2D
  extents_min : Extent2D
  extents_max : Extent2D
  max_image_layers : Nat
  usage : Nat
  composite_alpha : CompositeAlpha
deriving DecidableEq

/-- `Surface::swapchain_formats`. -/
def Surface.swapchain_formats (_ : Surface) : List Format :=
  [.Rgba8Unorm, .Bgra8Unorm]

/-- `window::Surface::compatibility`: capabilities derived on demand from
the canvas's currently reported size. -/
def Surface.compatibility (s : Surface) :
    SurfaceCapabilities × Option (List Format) × List PresentMode :=
  let extent : Extent2D := ⟨s.canvas.width, s.canvas.height⟩
  ({ image_count_min := 2
     image_count_max := 2
     current_extent := some extent
     extents_min := extent
     extents_max := extent
     max_image_layers := 1
     usage := USAGE_COLOR_ATTACHMENT ||| USAGE_TRANSFER_SRC
     composite_alpha := .OPAQUE },
   some s.swapchain_formats,
   [.Fifo])

/-- `hal::window::CreationError` (external crate); the spec speaks of a
variant signaling an unsupported format. -/
inductive CreationError where
  | OutOfMemory
  | DeviceLost
  | SurfaceLost
  | WindowInUse
  | UnsupportedFormat
deriving DecidableEq

/-- `hal::window::AcquireError` (external crate). -/
inductive AcquireError where
  | OutOfMemory
  | NotReady
  | Timeout
  | OutOfDate
  | SurfaceLost
  | DeviceLost
deriving DecidableEq

/-- `hal::window::Suboptimal` marker. -/
inductive Suboptimal where
  | mk
deriving DecidableEq

/-- `native::ImageView`; the only variant this module constructs wraps a
renderbuffer handle. -/
inductive ImageView where
  | Renderbuffer (r : GLHandle)
  | Texture (t : GLHandle) (level : Nat)
deriving DecidableEq

/-- `hal::window::SwapchainConfig`: the fields the module receives; only
`format` and `extent` are read by the code. -/
structure SwapchainConfig where
  format : Format
  extent : Extent2D
  image_count : Nat
  present_mode : PresentMode
deriving DecidableEq

/-- Outcome of `configure_swapchain`: `ok`/`err` mirror the Rust
`Result<(), CreationError>` (together with the mutated receiver and GLState
state), and `panicked` marks a `.unwrap()` on `None`, carrying the state
reached at the panic point. The code never constructs `err`. -/
inductive ConfigureOutcome where
  | ok (surf : Surface) (gl : GLState)
  | err (e : CreationError) (surf : Surface) (gl : GLState)
  | panicked (surf : Surface) (gl : GLState)
deriving DecidableEq

/-- Surface state carried by a configure outcome. -/
def ConfigureOutcome.surfState : ConfigureOutcome → Surface
  | .ok s _ => s
  | .err _ s _ => s
  | .panicked s _ => s

/-- GLState state carried by a configure outcome. -/
def ConfigureOutcome.glState : ConfigureOutcome → GLState
  | .ok _ g => g
  | .err _ _ g => g
  | .panicked _ g => g

/-- Whether the outcome is a successful return. -/
def ConfigureOutcome.isOk : ConfigureOutcome → Bool
  | .ok _ _ => true
  | _ => false

/-- Whether the outcome is an error return. -/
def ConfigureOutcome.isErr : ConfigureOutcome → Bool
  | .err _ _ _ => true
  | _ => false

/-- Whether the outcome is a panic. -/
def ConfigureOutcome.isPanicked : ConfigureOutcome → Bool
  | .panicked _ _ => true
  | _ => false

/-- Deleting a list of framebuffers in order (the `for fbo in old.fbos`
loop body). -/
def deleteFbos (gl : GLState) (l : List GLHandle) : GLState :=
  l.foldl (fun g f => g.delete_framebuffer f) gl

/-- `PresentationSurface::configure_swapchain`, step by step as in the
source: take and tear down the old swapchain's framebuffers; create a
renderbuffer only if none exists; translate the format (an `unwrap`, hence
`panicked` on `None`); bind the renderbuffer and (re)provision its storage;
create, bind and wire a fresh framebuffer; record the new swapchain. -/
def configure_swapchain (s : Surface) (gl : GLState) (config : SwapchainConfig) :
    ConfigureOutcome :=
  let p1 : Surface × GLState :=
    match s.swapchain with
    | some old => ({ s with swapchain := none }, deleteFbos gl old.fbos)
    | none => (s, gl)
  let p2 : Surface × GLState :=
    match p1.1.renderbuffer with
    | none =>
      let q := p1.2.create_renderbuffer
      ({ p1.1 with renderbuffer := some q.2 }, q.1)
    | some _ => p1
  match describe_format config.format with
  | none => ConfigureOutcome.panicked p2.1 p2.2
  | some desc =>
    let gl1 := p2.2.bind_renderbuffer glRENDERBUFFER p2.1.renderbuffer
    let gl2 := gl1.renderbuffer_storage glRENDERBUFFER desc.tex_internal
                 config.extent.width config.extent.height
    let q := gl2.create_framebuffer
    let gl3 := q.1.bind_framebuffer glREAD_FRAMEBUFFER (some q.2)
    let gl4 := gl3.framebuffer_renderbuffer glREAD_FRAMEBUFFER glCOLOR_ATTACHMENT0
                 glRENDERBUFFER p2.1.renderbuffer
    ConfigureOutcome.ok { p2.1 with swapchain := some ⟨config.extent, [q.2]⟩ } gl4

/-- `PresentationSurface::unconfigure_swapchain`: take the swapchain and
delete its framebuffers if present, then take and delete the renderbuffer
if present. -/
def unconfigure_swapchain (s : Surface) (gl : GLState) : Surface × GLState :=
  let p : Surface × GLState :=
    match s.swapchain with
    | some old => ({ s with swapchain := none }, deleteFbos gl old.fbos)
    | none => (s, gl)
  match p.1.renderbuffer with
  | some rbo => ({ p.1 with renderbuffer := none }, p.2.delete_renderbuffer rbo)
  | none => p

/-- Outcome of `PresentationSurface::acquire_image`: `ok`/`err` mirror the
Rust result type and `panicked` marks the `self.renderbuffer.unwrap()` on
`None`. The code never constructs `err`. -/
inductive AcquireOutcome where
  | ok (image : ImageView) (sub : Option Suboptimal)
  | err (e : AcquireError)
  | panicked
deriving DecidableEq

/-- `PresentationSurface::acquire_image`: unwraps the renderbuffer field
and wraps it in an image view; the timeout is ignored. -/
def Surface.acquire_image (s : Surface) (_timeout_ns : Nat) : AcquireOutcome :=
  match s.renderbuffer with
  | none => .panicked
  | some r => .ok (.Renderbuffer r) none

/-- Legacy `window::Swapchain::acquire_image`: unconditionally image index
0, no suboptimal flag, all arguments ignored (`Semaphore`/`Fence` arguments
are reduced to opaque naturals). -/
def Swapchain.acquire_image (_sc : Swapchain) (_timeout_ns : Nat)
    (_semaphore : Option Nat) (_fence : Option Nat) :
    Except AcquireError (Nat × Option Suboptimal) :=
  Except.ok (0, none)

/-- The representation invariant relating the two optional fields: a
configured swapchain implies a live renderbuffer handle. -/
def surfaceInv (s : Surface) : Bool :=
  !s.swapchain.isSome || s.renderbuffer.isSome

/-- Whether a recorded call allocates a renderbuffer. -/
def GLCall.isCreateRenderbuffer : GLCall → Bool
  | .createRenderbuffer _ => true
  | _ => false

/-- Whether a recorded call allocates a framebuffer. -/
def GLCall.isCreateFramebuffer : GLCall → Bool
  | .createFramebuffer _ => true
  | _ => false

/-- The framebuffers recorded in an optional swapchain. -/
def swapchainFbos : Option Swapchain → List GLHandle
  | some sc => sc.fbos
  | none => []

/-- Two back-to-back configure calls starting from a freshly created
surface and a fresh context; returns both outcomes. -/
def reconfigureTwice (canvas : Extent2D) (c1 c2 : SwapchainConfig) :
    ConfigureOutcome × ConfigureOutcome :=
  let o1 := configure_swapchain (create_surface_with_element canvas).1 GLState.fresh c1
  (o1, configure_swapchain o1.surfState o1.glState c2)

/-- A canvas reporting the spec's example size. -/
def canvas800 : Extent2D := ⟨800, 600⟩

/-- A freshly created surface over that canvas. -/
def surf0 : Surface := (create_surface_with_element canvas800).1

/-- The spec's example configuration: RGBA8 at 512x512. -/
def cfg512 : SwapchainConfig := ⟨.Rgba8Unorm, ⟨512, 512⟩, 2, .Fifo⟩

/-- The spec's example reconfiguration: RGBA8 at 1024x768. -/
def cfg1024 : SwapchainConfig := ⟨.Rgba8Unorm, ⟨1024, 768⟩, 2, .Fifo⟩

/-- A configuration whose format the conversion collaborator rejects. -/
def cfgDepth : SwapchainConfig := ⟨.D32Sfloat, ⟨512, 512⟩, 2, .Fifo⟩

/-- A surface in an already-configured state (swapchain and renderbuffer
both present), used as a concrete instance. -/
def surfCfgd : Surface :=
  { canvas := canvas800, swapchain := some ⟨⟨512, 512⟩, [1]⟩, renderbuffer := some 0 }

/-- A context state matching `surfCfgd`. -/
def glCfgd : GLState :=
  { next := 2, liveRbos := [0], liveFbos := [1], boundRbo := some 0
    boundReadFbo := some 1, rboStorage := [(0, 32856, 512, 512)]
    fboColor0 := [(1, some 0)], calls := [] }

/-- The outcome of configuring the fresh example surface at 512x512. -/
def oCfg512 : ConfigureOutcome := configure_swapchain surf0 GLState.fresh cfg512

/-! ## Helper lemmas -/

theorem deleteFbos_liveRbos (l : List GLHandle) (gl : GLState) :
    (deleteFbos gl l).liveRbos = gl.liveRbos := by
  induction l generalizing gl with
  | nil => rfl
  | cons a t ih =>
    rw [show deleteFbos gl (a :: t) = deleteFbos (gl.delete_framebuffer a) t from rfl, ih]
    rfl

theorem deleteFbos_calls (l : List GLHandle) (gl : GLState) :
    (deleteFbos gl l).calls = gl.calls ++ l.map GLCall.deleteFramebuffer := by
  induction l generalizing gl with
  | nil => simp [deleteFbos]
  | cons a t ih =>
    rw [show deleteFbos gl (a :: t) = deleteFbos (gl.delete_framebuffer a) t from rfl, ih]
    simp [GLState.delete_framebuffer]

theorem deleteFbos_rboStorage (l : List GLHandle) (gl : GLState) :
    (deleteFbos gl l).rboStorage = gl.rboStorage := by
  induction l generalizing gl with
  | nil => rfl
  | cons a t ih =>
    rw [show deleteFbos gl (a :: t) = deleteFbos (gl.delete_framebuffer a) t from rfl, ih]
    rfl

theorem filter_isCreateRenderbuffer_deleteFramebuffer (l : List GLHandle) :
    (l.map GLCall.deleteFramebuffer).filter GLCall.isCreateRenderbuffer = [] := by
  induction l with
  | nil => rfl
  | cons a t ih => simp [List.filter_cons, GLCall.isCreateRenderbuffer, ih]

theorem filter_isCreateFramebuffer_deleteFramebuffer (l : List GLHandle) :
    (l.map GLCall.deleteFramebuffer).filter GLCall.isCreateFramebuffer = [] := by
  induction l with
  | nil => rfl
  | cons a t ih => simp [List.filter_cons, GLCall.isCreateFramebuffer, ih]

/-! ## Claim theorems -/

/-- C9: the legacy `Swapchain::acquire_image` unconditionally returns
`Ok` with image index 0 and no suboptimal flag, for every timeout,
semaphore argument and fence argument: its result is independent of all
of its arguments and it never returns an error. -/
theorem C9_legacy_acquire_const (sc : Swapchain) (t : Nat)
    (sem fence : Option Nat) :
    Swapchain.acquire_image sc t sem fence = Except.ok (0, none) := rfl

/-- C5: for every surface, `compatibility` returns an image-count range of
exactly 2..=2, an extent range collapsed to the single point equal to the
canvas's currently reported size (also the current extent), max image
layers 1, usage COLOR_ATTACHMENT together with TRANSFER_SRC, composite
alpha fixed to the opaque mode, and a present-mode list containing exactly
FIFO. -/
theorem C5_compatibility_fixed (s : Surface) :
    s.compatibility =
      ({ image_count_min := 2
         image_count_max := 2
         current_extent := some s.canvas
         extents_min := s.canvas
         extents_max := s.canvas
         max_image_layers := 1
         usage := USAGE_COLOR_ATTACHMENT ||| USAGE_TRANSFER_SRC
         composite_alpha := .OPAQUE },
       some [Format.Rgba8Unorm, Format.Bgra8Unorm],
       [PresentMode.Fifo]) := rfl

/-- C1 (counterexample to the claim as stated): on the concrete fresh
surface, on which configure has never been called, `acquire_image` does
not return an `AcquireError`; it panics (the `unwrap` of the absent
renderbuffer). -/
theorem C1_counterexample :
    surf0.acquire_image 1000 = .panicked ∧
    ∀ e : AcquireError, surf0.acquire_image 1000 ≠ .err e := by
  refine ⟨rfl, ?_⟩
  intro e
  cases e <;> decide

/-- C1 (amended): for every surface with no backing renderbuffer (configure
not called since the last unconfigure), `acquire_image` diverges — it
panics unwrapping the absent renderbuffer — rather than returning an
`AcquireError` or producing a handle. -/
theorem C1_acquire_unconfigured_panics (s : Surface) (t : Nat)
    (h : s.renderbuffer = none) :
    s.acquire_image t = .panicked := by
  simp [Surface.acquire_image, h]

/-- Witness for C1 at the concrete fresh surface. -/
theorem C1_acquire_unconfigured_witness :
    surf0.renderbuffer = none ∧ surf0.acquire_image 1000 = .panicked :=
  ⟨rfl, C1_acquire_unconfigured_panics surf0 1000 rfl⟩

/-- C2 (counterexample to the claim as stated): at the concrete
configuration whose format the conversion collaborator cannot translate,
`configure_swapchain` does not return a `CreationError`; it panics (the
`unwrap` of `describe_format`). -/
theorem C2_counterexample :
    describe_format cfgDepth.format = none ∧
    (configure_swapchain surf0 GLState.fresh cfgDepth).isErr = false ∧
    (configure_swapchain surf0 GLState.fresh cfgDepth).isPanicked = true := by
  refine ⟨rfl, by decide, by decide⟩

/-- C2 (amended): for every configuration whose format the conversion
collaborator cannot translate (`describe_format` yields no descriptor),
`configure_swapchain` diverges — it panics unwrapping the translation —
rather than returning a `CreationError`. -/
theorem C2_configure_bad_format_panics (s : Surface) (gl : GLState)
    (cfg : SwapchainConfig) (h : describe_format cfg.format = none) :
    (configure_swapchain s gl cfg).isPanicked = true := by
  unfold configure_swapchain
  rw [h]
  rfl

/-- Witness for C2 at the concrete untranslatable configuration. -/
theorem C2_configure_bad_format_witness :
    describe_format cfgDepth.format = none ∧
    (configure_swapchain surf0 GLState.fresh cfgDepth).isPanicked = true :=
  ⟨rfl, C2_configure_bad_format_panics surf0 GLState.fresh cfgDepth rfl⟩

/-- C3 (counterexample to the claim as stated): on the concrete fresh
surface (no renderbuffer yet) with the untranslatable format, the failing
`configure_swapchain` call has already allocated a new renderbuffer before
format translation: the live-renderbuffer count grew from 0 to 1 and a
create-renderbuffer call is in the trace. -/
theorem C3_counterexample :
    describe_format cfgDepth.format = none ∧
    surf0.renderbuffer = none ∧
    GLState.fresh.liveRbos.length = 0 ∧
    (configure_swapchain surf0 GLState.fresh cfgDepth).glState.liveRbos.length = 1 ∧
    GLCall.createRenderbuffer 0 ∈
      (configure_swapchain surf0 GLState.fresh cfgDepth).glState.calls := by
  refine ⟨rfl, rfl, rfl, by decide, by decide⟩

/-- C3 (amended): `configure_swapchain` translates the format after the
renderbuffer reuse/allocation step but before allocating the framebuffer,
so on format-translation failure no framebuffer is ever allocated (the
trace gains no create-framebuffer call); a renderbuffer, however, has been
newly allocated exactly when the surface had none, and it is retained in
the surface's renderbuffer field (reachable, hence not leaked). -/
theorem C3_translate_before_framebuffer_alloc (s : Surface) (gl : GLState)
    (cfg : SwapchainConfig) (h : describe_format cfg.format = none) :
    (configure_swapchain s gl cfg).isPanicked = true ∧
    ((configure_swapchain s gl cfg).glState.calls.filter
        GLCall.isCreateFramebuffer).length
      = (gl.calls.filter GLCall.isCreateFramebuffer).length ∧
    (configure_swapchain s gl cfg).surfState.renderbuffer.isSome = true ∧
    (s.renderbuffer = none →
      ((configure_swapchain s gl cfg).glState.calls.filter
          GLCall.isCreateRenderbuffer).length
        = (gl.calls.filter GLCall.isCreateRenderbuffer).length + 1) ∧
    (s.renderbuffer.isSome = true →
      ((configure_swapchain s gl cfg).glState.calls.filter
          GLCall.isCreateRenderbuffer).length
        = (gl.calls.filter GLCall.isCreateRenderbuffer).length) := by
  cases hsw : s.swapchain <;> cases hrb : s.renderbuffer <;>
    simp [configure_swapchain, hsw, hrb, h, deleteFbos_calls,
      GLState.create_renderbuffer, ConfigureOutcome.glState,
      ConfigureOutcome.surfState, ConfigureOutcome.isPanicked,
      List.filter_append, List.filter_cons,
      filter_isCreateRenderbuffer_deleteFramebuffer,
      filter_isCreateFramebuffer_deleteFramebuffer,
      GLCall.isCreateRenderbuffer, GLCall.isCreateFramebuffer]

/-- Witness for C3 (amended) at the concrete fresh surface and
untranslatable configuration. -/
theorem C3_translate_witness :
    describe_format cfgDepth.format = none ∧
    ((configure_swapchain surf0 GLState.fresh cfgDepth).isPanicked = true ∧
    ((configure_swapchain surf0 GLState.fresh cfgDepth).glState.calls.filter
        GLCall.isCreateFramebuffer).length
      = (GLState.fresh.calls.filter GLCall.isCreateFramebuffer).length ∧
    (configure_swapchain surf0 GLState.fresh cfgDepth).surfState.renderbuffer.isSome = true ∧
    (surf0.renderbuffer = none →
      ((configure_swapchain surf0 GLState.fresh cfgDepth).glState.calls.filter
          GLCall.isCreateRenderbuffer).length
        = (GLState.fresh.calls.filter GLCall.isCreateRenderbuffer).length + 1) ∧
    (surf0.renderbuffer.isSome = true →
      ((configure_swapchain surf0 GLState.fresh cfgDepth).glState.calls.filter
          GLCall.isCreateRenderbuffer).length
        = (GLState.fresh.calls.filter GLCall.isCreateRenderbuffer).length)) :=
  ⟨rfl, C3_translate_before_framebuffer_alloc surf0 GLState.fresh cfgDepth rfl⟩

/-- C10: the invariant "a configured swapchain never exists without a live
renderbuffer handle" holds after each surface operation: surface creation,
any `configure_swapchain` call (in particular those with a translatable
format), and `unconfigure_swapchain`. -/
theorem C10_swapchain_implies_renderbuffer (canvas : Extent2D) (s : Surface)
    (gl : GLState) (cfg : SwapchainConfig) :
    surfaceInv (create_surface_with_element canvas).1 = true ∧
    surfaceInv ((configure_swapchain s gl cfg).surfState) = true ∧
    surfaceInv ((unconfigure_swapchain s gl).1) = true := by
  refine ⟨rfl, ?_, ?_⟩
  · cases hsw : s.swapchain <;> cases hrb : s.renderbuffer <;>
      cases hdf : describe_format cfg.format <;>
      simp [configure_swapchain, hsw, hrb, hdf, surfaceInv,
        GLState.create_renderbuffer, ConfigureOutcome.surfState]
  · cases hsw : s.swapchain <;> cases hrb : s.renderbuffer <;>
      simp [unconfigure_swapchain, hsw, hrb, surfaceInv]

/-- C8: `unconfigure_swapchain` is idempotent: the first call clears both
optional fields (releasing what was present), and a second call in a row
is a no-op — it returns the same surface and the same context state, so
its trace gains no call at all (no error, no double-release); moreover,
calling it when nothing is configured performs no release at all (it
returns both the surface and the context state unchanged). -/
theorem C8_unconfigure_idempotent (s : Surface) (gl : GLState) :
    unconfigure_swapchain (unconfigure_swapchain s gl).1
        (unconfigure_swapchain s gl).2
      = unconfigure_swapchain s gl ∧
    (unconfigure_swapchain s gl).1.swapchain = none ∧
    (unconfigure_swapchain s gl).1.renderbuffer = none ∧
    (s.swapchain = none → s.renderbuffer = none →
      unconfigure_swapchain s gl = (s, gl)) := by
  cases hsw : s.swapchain <;> cases hrb : s.renderbuffer <;>
    simp [unconfigure_swapchain, hsw, hrb]

/-- Witness for C8 at a concrete configured surface and matching context
state. -/
theorem C8_unconfigure_witness :
    unconfigure_swapchain (unconfigure_swapchain surfCfgd glCfgd).1
        (unconfigure_swapchain surfCfgd glCfgd).2
      = unconfigure_swapchain surfCfgd glCfgd ∧
    (unconfigure_swapchain surfCfgd glCfgd).1.swapchain = none ∧
    (unconfigure_swapchain surfCfgd glCfgd).1.renderbuffer = none ∧
    (surfCfgd.swapchain = none → surfCfgd.renderbuffer = none →
      unconfigure_swapchain surfCfgd glCfgd = (surfCfgd, glCfgd)) :=
  C8_unconfigure_idempotent surfCfgd glCfgd

/-- C6: for every surface that already holds a renderbuffer handle, a
`configure_swapchain` call with a translatable format succeeds, leaves the
renderbuffer handle unchanged and allocates no new renderbuffer (the live
set is unchanged and the trace gains no create-renderbuffer call), while
the renderbuffer's storage is (re)provisioned with the translated internal
format and the requested width and height. -/
theorem C6_renderbuffer_reuse (s : Surface) (gl : GLState)
    (cfg : SwapchainConfig) (r : GLHandle) (d : FormatDescription)
    (hr : s.renderbuffer = some r)
    (hd : describe_format cfg.format = some d) :
    (configure_swapchain s gl cfg).isOk = true ∧
    (configure_swapchain s gl cfg).surfState.renderbuffer = some r ∧
    (configure_swapchain s gl cfg).glState.liveRbos = gl.liveRbos ∧
    ((configure_swapchain s gl cfg).glState.calls.filter
        GLCall.isCreateRenderbuffer).length
      = (gl.calls.filter GLCall.isCreateRenderbuffer).length ∧
    (configure_swapchain s gl cfg).glState.storageOf r
      = some (d.tex_internal, cfg.extent.width, cfg.extent.height) := by
  cases hsw : s.swapchain <;>
    simp [configure_swapchain, hsw, hr, hd, GLState.bind_renderbuffer,
      GLState.renderbuffer_storage, GLState.create_framebuffer,
      GLState.bind_framebuffer, GLState.framebuffer_renderbuffer,
      GLState.storageOf, ConfigureOutcome.isOk, ConfigureOutcome.surfState,
      ConfigureOutcome.glState, deleteFbos_liveRbos, deleteFbos_calls,
      deleteFbos_rboStorage, List.filter_append, List.filter_cons,
      filter_isCreateRenderbuffer_deleteFramebuffer,
      GLCall.isCreateRenderbuffer, List.find?]

/-- Witness for C6 at the concrete configured surface. -/
theorem C6_renderbuffer_reuse_witness :
    surfCfgd.renderbuffer = some 0 ∧
    describe_format cfg1024.format = some ⟨32856⟩ ∧
    ((configure_swapchain surfCfgd glCfgd cfg1024).isOk = true ∧
    (configure_swapchain surfCfgd glCfgd cfg1024).surfState.renderbuffer = some 0 ∧
    (configure_swapchain surfCfgd glCfgd cfg1024).glState.liveRbos = glCfgd.liveRbos ∧
    ((configure_swapchain surfCfgd glCfgd cfg1024).glState.calls.filter
        GLCall.isCreateRenderbuffer).length
      = (glCfgd.calls.filter GLCall.isCreateRenderbuffer).length ∧
    (configure_swapchain surfCfgd glCfgd cfg1024).glState.storageOf 0
      = some ((32856 : Nat), cfg1024.extent.width, cfg1024.extent.height)) :=
  ⟨rfl, rfl, C6_renderbuffer_reuse surfCfgd glCfgd cfg1024 0 ⟨32856⟩ rfl rfl⟩

theorem configure_renderbuffer_isSome (s : Surface) (gl : GLState)
    (cfg : SwapchainConfig) :
    ((configure_swapchain s gl cfg).surfState).renderbuffer.isSome = true := by
  cases hsw : s.swapchain <;> cases hrb : s.renderbuffer <;>
    cases hdf : describe_format cfg.format <;>
    simp [configure_swapchain, hsw, hrb, hdf, GLState.create_renderbuffer,
      ConfigureOutcome.surfState]

/-- C7: whenever `configure_swapchain` has succeeded, `acquire_image` on
the resulting surface succeeds and returns an image view wrapping exactly
the surface's currently-configured renderbuffer handle, with no
suboptimal flag. -/
theorem C7_acquire_after_configure (s : Surface) (gl : GLState)
    (cfg : SwapchainConfig) (s2 : Surface) (g2 : GLState) (t : Nat)
    (h : configure_swapchain s gl cfg = .ok s2 g2) :
    ∃ r, s2.renderbuffer = some r ∧
      s2.acquire_image t = .ok (.Renderbuffer r) none := by
  have hs : (configure_swapchain s gl cfg).surfState = s2 := by rw [h]; rfl
  have hsome := configure_renderbuffer_isSome s gl cfg
  rw [hs] at hsome
  obtain ⟨r, hr⟩ := Option.isSome_iff_exists.mp hsome
  exact ⟨r, hr, by simp [Surface.acquire_image, hr]⟩

/-- Witness for C7 at the concrete successful configuration of the fresh
surface. -/
theorem C7_acquire_witness :
    configure_swapchain surf0 GLState.fresh cfg512
      = .ok oCfg512.surfState oCfg512.glState ∧
    ∃ r, oCfg512.surfState.renderbuffer = some r ∧
      oCfg512.surfState.acquire_image 0 = .ok (.Renderbuffer r) none :=
  ⟨rfl, C7_acquire_after_configure surf0 GLState.fresh cfg512
    oCfg512.surfState oCfg512.glState 0 rfl⟩

/-- C4: for all valid configurations (both formats translatable), calling
configure twice from a freshly created surface and fresh context succeeds
both times, yields a swapchain whose recorded extent is the second
configuration's extent with exactly one framebuffer entry, leaves exactly
one live framebuffer and exactly one live renderbuffer in the context,
and every framebuffer installed by the first configure is no longer live
(the live-resource count does not grow with the number of configure
calls). -/
theorem C4_reconfigure_single_live_pair (canvas : Extent2D)
    (c1 c2 : SwapchainConfig) (d1 d2 : FormatDescription)
    (hd1 : describe_format c1.format = some d1)
    (hd2 : describe_format c2.format = some d2) :
    (reconfigureTwice canvas c1 c2).1.isOk = true ∧
    (reconfigureTwice canvas c1 c2).2.isOk = true ∧
    ((reconfigureTwice canvas c1 c2).2.surfState.swapchain.map Swapchain.extent)
      = some c2.extent ∧
    ((reconfigureTwice canvas c1 c2).2.surfState.swapchain.map
        (fun sc => sc.fbos.length)) = some 1 ∧
    (reconfigureTwice canvas c1 c2).2.glState.liveFbos.length = 1 ∧
    (reconfigureTwice canvas c1 c2).2.glState.liveRbos.length = 1 ∧
    (∀ f, f ∈ swapchainFbos (reconfigureTwice canvas c1 c2).1.surfState.swapchain →
      f ∉ (reconfigureTwice canvas c1 c2).2.glState.liveFbos) := by
  simp [reconfigureTwice, configure_swapchain, create_surface_with_element,
    GLState.fresh, hd1, hd2, GLState.create_renderbuffer,
    GLState.bind_renderbuffer, GLState.renderbuffer_storage,
    GLState.create_framebuffer, GLState.bind_framebuffer,
    GLState.framebuffer_renderbuffer, deleteFbos, GLState.delete_framebuffer,
    ConfigureOutcome.isOk, ConfigureOutcome.surfState,
    ConfigureOutcome.glState, swapchainFbos]

/-- Witness for C4 at the spec's example configurations. -/
theorem C4_reconfigure_witness :
    describe_format cfg512.format = some ⟨32856⟩ ∧
    describe_format cfg1024.format = some ⟨32856⟩ ∧
    ((reconfigureTwice canvas800 cfg512 cfg1024).1.isOk = true ∧
    (reconfigureTwice canvas800 cfg512 cfg1024).2.isOk = true ∧
    ((reconfigureTwice canvas800 cfg512 cfg1024).2.surfState.swapchain.map
        Swapchain.extent) = some cfg1024.extent ∧
    ((reconfigureTwice canvas800 cfg512 cfg1024).2.surfState.swapchain.map
        (fun sc => sc.fbos.length)) = some 1 ∧
    (reconfigureTwice canvas800 cfg512 cfg1024).2.glState.liveFbos.length = 1 ∧
    (reconfigureTwice canvas800 cfg512 cfg1024).2.glState.liveRbos.length = 1 ∧
    (∀ f, f ∈ swapchainFbos
        (reconfigureTwice canvas800 cfg512 cfg1024).1.surfState.swapchain →
      f ∉ (reconfigureTwice canvas800 cfg512 cfg1024).2.glState.liveFbos)) :=
  ⟨rfl, rfl, C4_reconfigure_single_live_pair canvas800 cfg512 cfg1024
    ⟨32856⟩ ⟨32856⟩ rfl rfl⟩
